import Mathlib

/-
  Verification of the Speed-Tracker repository.

  The repository has two components:
  - src/server.ts: an Express HTTP server backed by better-sqlite3 with a
    single table speedtests(id INTEGER PRIMARY KEY AUTOINCREMENT,
    timestamp DATETIME DEFAULT CURRENT_TIMESTAMP, download_mbps REAL,
    upload_mbps REAL, ping_ms REAL), endpoints GET/POST/DELETE
    /api/speedtests plus probe endpoints /api/ping, /api/payload,
    /api/upload.
  - src/unnamed/part_000: a React client whose runSpeedTest callback runs the
    three timed probes, computes download_mbps / upload_mbps / ping_ms, and
    POSTs the rounded metrics to /api/speedtests.

  The embedding below models JavaScript numbers as an inductive over exact
  rationals extended with Infinity, -Infinity and NaN (IEEE doubles are
  approximated by exact rationals; none of the verified properties depends
  on binary rounding), SQLite values as real / text / null, and the
  database as the list of rows in insertion (rowid) order together with the
  AUTOINCREMENT sequence counter.
-/

namespace SpeedTracker

/-- A JavaScript JSON-ish value as it can appear in a parsed request body
field. A missing field is modelled as `Option.none` at the use site
(destructuring a missing property yields undefined). -/
inductive JSVal where
  | num (q : ℚ)
  | str (s : String)
  | null
  | boolean (b : Bool)
deriving DecidableEq

/-- A value stored in a SQLite column. -/
inductive SqlVal where
  | real (q : ℚ)
  | text (s : String)
  | null
deriving DecidableEq

/-- One row of the speedtests table. `timestamp` is CURRENT_TIMESTAMP in
whole seconds (SQLite DATETIME has one-second granularity). -/
structure SqlRow where
  id : Nat
  timestamp : Nat
  download_mbps : SqlVal
  upload_mbps : SqlVal
  ping_ms : SqlVal
deriving DecidableEq

/-- The persistent state of the better-sqlite3 database.
`rows` is kept in insertion (rowid) order; `seq` is the AUTOINCREMENT
sequence (the largest id ever assigned), which a DELETE does not reset. -/
structure DbState where
  tableExists : Bool
  hasUploadCol : Bool
  rows : List SqlRow
  seq : Nat
deriving DecidableEq

/-- server.ts lines 9-17: CREATE TABLE IF NOT EXISTS speedtests (...).
A no-op when the table already exists; a fresh create has every column,
upload_mbps included. -/
def createTableIfNotExists (db : DbState) : DbState :=
  if db.tableExists then db
  else { db with tableExists := true, hasUploadCol := true }

/-- server.ts line 20: ALTER TABLE speedtests ADD COLUMN upload_mbps REAL.
SQLite raises an error when the column already exists; adding the column to
a legacy table leaves every existing row with NULL in the new column, which
the row model already represents, so rows are untouched. -/
def alterAddUploadCol (db : DbState) : Except Unit DbState :=
  if db.hasUploadCol then Except.error ()
  else Except.ok { db with hasUploadCol := true }

/-- server.ts lines 9-23: the schema initialization run at startup: the
CREATE TABLE IF NOT EXISTS followed by the ALTER TABLE wrapped in
try/catch with the error ignored, so initialization never raises. -/
def initSchema (db : DbState) : DbState :=
  let db1 := createTableIfNotExists db
  match alterAddUploadCol db1 with
  | Except.ok db2 => db2
  | Except.error _ => db1

/-- better-sqlite3 parameter binding: numbers, strings, bigints, buffers
and null bind; undefined (a missing field) and booleans raise a TypeError.
(SQLite REAL affinity may additionally convert numeric strings on storage;
no verified property depends on that, so bound values are stored as-is.) -/
def bindParam : Option JSVal → Except Unit SqlVal
  | Option.none => Except.error ()
  | Option.some (JSVal.num q) => Except.ok (SqlVal.real q)
  | Option.some (JSVal.str s) => Except.ok (SqlVal.text s)
  | Option.some JSVal.null => Except.ok SqlVal.null
  | Option.some (JSVal.boolean _) => Except.error ()

/-- The parsed JSON body of POST /api/speedtests, after the destructuring
on server.ts line 40; `Option.none` means the field was absent. -/
structure ReqBody where
  download_mbps : Option JSVal
  upload_mbps : Option JSVal
  ping_ms : Option JSVal

/-- server.ts lines 39-46 without the HTTP wrapper: bind the three metrics
and INSERT; AUTOINCREMENT assigns seq+1 as id and CURRENT_TIMESTAMP
(`now`) as timestamp; the freshly inserted row is read back and returned.
A binding TypeError propagates as `Except.error`. -/
def createSpeedtest (now : Nat) (b : ReqBody) (db : DbState) :
    Except Unit (SqlRow × DbState) :=
  match bindParam b.download_mbps, bindParam b.upload_mbps,
      bindParam b.ping_ms with
  | Except.ok d, Except.ok u, Except.ok p =>
    let newId := db.seq + 1
    let row : SqlRow :=
      { id := newId, timestamp := now, download_mbps := d,
        upload_mbps := u, ping_ms := p }
    Except.ok (row, { db with rows := db.rows ++ [row], seq := newId })
  | _, _, _ => Except.error ()

/-- The HTTP response of POST /api/speedtests: 200 with the created row,
or the 500 that Express produces from an uncaught handler exception. -/
inductive PostResp where
  | created (row : SqlRow)
  | serverError
deriving DecidableEq

/-- server.ts lines 39-46: the POST /api/speedtests handler. -/
def postSpeedtests (now : Nat) (b : ReqBody) (db : DbState) :
    PostResp × DbState :=
  match createSpeedtest now b db with
  | Except.ok (row, db2) => (PostResp.created row, db2)
  | Except.error _ => (PostResp.serverError, db)

/-- ORDER BY timestamp DESC as a relation on rows. -/
def tsDesc (a b : SqlRow) : Prop := b.timestamp ≤ a.timestamp

instance : DecidableRel tsDesc := fun a b => Nat.decLe b.timestamp a.timestamp

instance : IsTotal SqlRow tsDesc :=
  ⟨fun a b => Nat.le_total b.timestamp a.timestamp⟩

instance : IsTrans SqlRow tsDesc :=
  ⟨fun _ _ _ h1 h2 => Nat.le_trans h2 h1⟩

/-- server.ts lines 33-37: SELECT * FROM speedtests ORDER BY timestamp
DESC LIMIT 100. The sort key is the timestamp alone; SQLite leaves the
relative order of equal keys unspecified, modelled here as a stable sort
over the table-scan (insertion) order. -/
def listSpeedtests (db : DbState) : List SqlRow :=
  (List.insertionSort tsDesc db.rows).take 100

/-- server.ts lines 48-51: the DELETE /api/speedtests handler: DELETE FROM
speedtests, then respond success true. DELETE does not reset the
AUTOINCREMENT sequence. -/
def deleteSpeedtests (db : DbState) : DbState × Bool :=
  ({ db with rows := [] }, true)

/-- A freshly initialized empty store. -/
def emptyDb : DbState :=
  { tableExists := true, hasUploadCol := true, rows := [], seq := 0 }

/-- A JavaScript number: an exact rational, Infinity, -Infinity or NaN.
(IEEE binary rounding is abstracted away; every verified property holds at
inputs where the double computation is exact.) -/
inductive JSNum where
  | fin (q : ℚ)
  | posInf
  | negInf
  | nan
deriving DecidableEq

/-- JavaScript subtraction. -/
def JSNum.sub : JSNum → JSNum → JSNum
  | JSNum.nan, _ => JSNum.nan
  | _, JSNum.nan => JSNum.nan
  | JSNum.fin a, JSNum.fin b => JSNum.fin (a - b)
  | JSNum.posInf, JSNum.fin _ => JSNum.posInf
  | JSNum.negInf, JSNum.fin _ => JSNum.negInf
  | JSNum.fin _, JSNum.posInf => JSNum.negInf
  | JSNum.fin _, JSNum.negInf => JSNum.posInf
  | JSNum.posInf, JSNum.posInf => JSNum.nan
  | JSNum.posInf, JSNum.negInf => JSNum.posInf
  | JSNum.negInf, JSNum.posInf => JSNum.negInf
  | JSNum.negInf, JSNum.negInf => JSNum.nan

/-- JavaScript multiplication (a rational zero stands for +0; the -0
distinction never arises in the verified runs). -/
def JSNum.mul : JSNum → JSNum → JSNum
  | JSNum.nan, _ => JSNum.nan
  | _, JSNum.nan => JSNum.nan
  | JSNum.fin a, JSNum.fin b => JSNum.fin (a * b)
  | JSNum.posInf, JSNum.fin b =>
    if 0 < b then JSNum.posInf else if b < 0 then JSNum.negInf else JSNum.nan
  | JSNum.fin a, JSNum.posInf =>
    if 0 < a then JSNum.posInf else if a < 0 then JSNum.negInf else JSNum.nan
  | JSNum.negInf, JSNum.fin b =>
    if 0 < b then JSNum.negInf else if b < 0 then JSNum.posInf else JSNum.nan
  | JSNum.fin a, JSNum.negInf =>
    if 0 < a then JSNum.negInf else if a < 0 then JSNum.posInf else JSNum.nan
  | JSNum.posInf, JSNum.posInf => JSNum.posInf
  | JSNum.posInf, JSNum.negInf => JSNum.negInf
  | JSNum.negInf, JSNum.posInf => JSNum.negInf
  | JSNum.negInf, JSNum.negInf => JSNum.posInf

/-- JavaScript division: a positive finite number divided by (+)0 is
Infinity, a negative one is -Infinity, 0/0 is NaN. -/
def JSNum.div : JSNum → JSNum → JSNum
  | JSNum.nan, _ => JSNum.nan
  | _, JSNum.nan => JSNum.nan
  | JSNum.fin a, JSNum.fin b =>
    if b = 0 then
      if 0 < a then JSNum.posInf
      else if a < 0 then JSNum.negInf
      else JSNum.nan
    else JSNum.fin (a / b)
  | JSNum.posInf, JSNum.fin b =>
    if b < 0 then JSNum.negInf else JSNum.posInf
  | JSNum.negInf, JSNum.fin b =>
    if b < 0 then JSNum.posInf else JSNum.negInf
  | JSNum.fin _, JSNum.posInf => JSNum.fin 0
  | JSNum.fin _, JSNum.negInf => JSNum.fin 0
  | _, JSNum.posInf => JSNum.nan
  | _, JSNum.negInf => JSNum.nan

/-- Number(x.toFixed(2)): rounding to two decimal places. toFixed of a
nonfinite number is its name and Number turns that name back into the
same nonfinite value. Ties are rounded half-up; the verified inputs are
nowhere near a tie, so the half-even subtleties of doubles do not matter. -/
def JSNum.toFixed2 : JSNum → JSNum
  | JSNum.fin q => JSNum.fin ((round (q * 100) : ℤ) / (100 : ℚ))
  | x => x

/-- JSON.stringify of a number: nonfinite numbers serialize as null. -/
def jsonNum : JSNum → Option ℚ
  | JSNum.fin q => Option.some q
  | _ => Option.none

/-- The network environment one invocation of runSpeedTest observes:
for each probe, the two performance.now readings around a successful
fetch (plus the received blob size for the download probe), or
`Option.none` when that fetch rejects; and whether the final save POST
came back ok. -/
structure TestEnv where
  ping : Option (ℚ × ℚ)
  download : Option (ℚ × ℚ × ℚ)
  upload : Option (ℚ × ℚ)
  saveOk : Bool

/-- The client-side React state that the claims mention: the isRunning
flag, the user-visible error message, and (for the small-step model) the
environment of the in-flight test between its start and its finish. -/
structure ClientState where
  isRunning : Bool
  error : Option String
  pendingEnv : Option TestEnv

/-- The generic failure message the catch block shows. -/
def testFailMsg : String := "測定に失敗しました。もう一度お試しください。"

/-- The rounded metrics the client POSTs to /api/speedtests
(part_000 lines 90-94). -/
structure Submission where
  download_mbps : JSNum
  upload_mbps : JSNum
  ping_ms : JSNum
deriving DecidableEq

/-- part_000 lines 54-94: the three sequential probes and the metric
arithmetic of runSpeedTest. A probe whose fetch rejects throws, so the
computation aborts at the first failing probe with no submission
(`Option.none`). The upload payload size is hardcoded to 2*1024*1024
bytes (line 72); the download size is the received blob.size. -/
def computeMetrics (env : TestEnv) : Option Submission :=
  match env.ping with
  | Option.none => Option.none
  | Option.some (p0, p1) =>
    let ping_ms := JSNum.sub (JSNum.fin p1) (JSNum.fin p0)
    match env.download with
    | Option.none => Option.none
    | Option.some (d0, d1, blobSize) =>
      let durationInSeconds :=
        JSNum.div (JSNum.sub (JSNum.fin d1) (JSNum.fin d0)) (JSNum.fin 1000)
      let bitsLoaded := JSNum.mul (JSNum.fin blobSize) (JSNum.fin 8)
      let speedBps := JSNum.div bitsLoaded durationInSeconds
      let download_mbps := JSNum.div speedBps (JSNum.fin (1024 * 1024))
      match env.upload with
      | Option.none => Option.none
      | Option.some (u0, u1) =>
        let uploadDurationInSeconds :=
          JSNum.div (JSNum.sub (JSNum.fin u1) (JSNum.fin u0)) (JSNum.fin 1000)
        let uploadBitsLoaded :=
          JSNum.mul (JSNum.fin (2 * 1024 * 1024)) (JSNum.fin 8)
        let uploadSpeedBps := JSNum.div uploadBitsLoaded uploadDurationInSeconds
        let upload_mbps := JSNum.div uploadSpeedBps (JSNum.fin (1024 * 1024))
        Option.some
          { download_mbps := JSNum.toFixed2 download_mbps,
            upload_mbps := JSNum.toFixed2 upload_mbps,
            ping_ms := JSNum.toFixed2 ping_ms }

/-- part_000 lines 53-107: the body of runSpeedTest after the guard: the
try block (probes, metrics, save POST), the catch block setting the error
message, and the finally block clearing isRunning. The second component
is the payload of the save POST when one was issued. When the save
response is not ok the POST has already been sent; the thrown error only
sets the message. -/
def completeTest (env : TestEnv) (st : ClientState) :
    ClientState × Option Submission :=
  match computeMetrics env with
  | Option.none =>
    ({ st with
        isRunning := false
        error := Option.some testFailMsg
        pendingEnv := Option.none }, Option.none)
  | Option.some sub =>
    if env.saveOk then
      ({ st with isRunning := false, pendingEnv := Option.none },
       Option.some sub)
    else
      ({ st with
          isRunning := false
          error := Option.some testFailMsg
          pendingEnv := Option.none }, Option.some sub)

/-- part_000 lines 48-108: one full invocation of runSpeedTest, run
atomically: the guard (line 49), setIsRunning(true) and setError(null)
(lines 50-51), then the body. -/
def runSpeedTest (env : TestEnv) (st : ClientState) :
    ClientState × Option Submission :=
  if st.isRunning then (st, Option.none)
  else completeTest env
    { st with isRunning := true, error := Option.none }

/-- An event of the small-step client model: a start request (the
synchronous prefix of runSpeedTest up to the first await) carrying the
environment the test will observe, or the completion of the in-flight
asynchronous body. -/
inductive ClientEvent where
  | start (env : TestEnv)
  | finish

/-- One step of the client, accumulating the save POSTs issued so far. A
start while isRunning is the guard of part_000 line 49: a no-op. A finish
with no in-flight test does nothing. -/
def stepClient (s : ClientState × List Submission) (ev : ClientEvent) :
    ClientState × List Submission :=
  match ev with
  | ClientEvent.start env =>
    if s.1.isRunning then s
    else ({ s.1 with
             isRunning := true
             error := Option.none
             pendingEnv := Option.some env }, s.2)
  | ClientEvent.finish =>
    match s.1.pendingEnv with
    | Option.none => s
    | Option.some env =>
      let r := completeTest env s.1
      (r.1, s.2 ++ r.2.toList)

/-- Run a sequence of client events. -/
def runTrace (init : ClientState × List Submission)
    (evs : List ClientEvent) : ClientState × List Submission :=
  evs.foldl stepClient init

/-- The idle client as first rendered. -/
def idleClient : ClientState :=
  { isRunning := false, error := Option.none, pendingEnv := Option.none }

/-- JSON.stringify of one metric as it lands in the POST body: a finite
number stays a number, Infinity / -Infinity / NaN become null. -/
def jsBodyVal (x : JSNum) : JSVal :=
  match jsonNum x with
  | Option.some q => JSVal.num q
  | Option.none => JSVal.null

/-- The body of the save POST built on part_000 lines 90-94. -/
def submissionBody (s : Submission) : ReqBody :=
  { download_mbps := Option.some (jsBodyVal s.download_mbps),
    upload_mbps := Option.some (jsBodyVal s.upload_mbps),
    ping_ms := Option.some (jsBodyVal s.ping_ms) }

/-- Deliver the save POST (when one was issued) to the server: the
resulting store state. -/
def submitToStore (now : Nat) (db : DbState) (sent : Option Submission) :
    DbState :=
  match sent with
  | Option.none => db
  | Option.some s => (postSpeedtests now (submissionBody s) db).2

/-- A sequence of POST /api/speedtests requests processed one after the
other by the single-threaded server, each with its CURRENT_TIMESTAMP
reading: the records the server returned (in order) and the final store.
A request whose binding throws returns 500 and adds no record. -/
def runCreations : DbState → List (Nat × ReqBody) → List SqlRow × DbState
  | db, [] => ([], db)
  | db, (now, b) :: rest =>
    match createSpeedtest now b db with
    | Except.error _ => runCreations db rest
    | Except.ok (r, db2) =>
      let p := runCreations db2 rest
      (r :: p.1, p.2)

/-
  Theorems, one per claim.
-/

/-- Claim C7: running the schema initialization against a store that has
already been initialized — whether or not it already has the upload_mbps
column — raises no error (initSchema is total because the ALTER failure
is caught), leaves every existing record and the id sequence unchanged,
and running it again changes nothing further. -/
theorem C7_initSchema_idempotent (db : DbState) (h : db.tableExists = true) :
    (initSchema db).rows = db.rows ∧ (initSchema db).seq = db.seq ∧
      initSchema (initSchema db) = initSchema db := by
  obtain ⟨te, hc, rows, seq⟩ := db
  subst h
  cases hc <;>
    simp [initSchema, createTableIfNotExists, alterAddUploadCol]

/-- Witness for C7 at the freshly initialized empty store. -/
theorem C7_initSchema_idempotent_witness :
    (initSchema emptyDb).rows = emptyDb.rows ∧
      (initSchema emptyDb).seq = emptyDb.seq ∧
      initSchema (initSchema emptyDb) = initSchema emptyDb :=
  C7_initSchema_idempotent emptyDb rfl

/-- Claim C9: DELETE /api/speedtests unconditionally empties the store
and acknowledges with success true, and a GET issued right after the
clear returns the empty sequence, whatever the store held before. -/
theorem C9_delete_empties (db : DbState) :
    (deleteSpeedtests db).2 = true ∧ (deleteSpeedtests db).1.rows = [] ∧
      listSpeedtests (deleteSpeedtests db).1 = [] :=
  ⟨rfl, rfl, rfl⟩

/-- Claim C10: the clear operation is idempotent: clearing an already
cleared store succeeds again with success true and changes nothing, so
clearing twice equals clearing once; in particular clearing the empty
store succeeds and leaves it empty. -/
theorem C10_clear_idempotent (db : DbState) :
    (deleteSpeedtests (deleteSpeedtests db).1).1 = (deleteSpeedtests db).1 ∧
      (deleteSpeedtests (deleteSpeedtests db).1).2 = true ∧
      (deleteSpeedtests emptyDb).1.rows = [] ∧
      (deleteSpeedtests emptyDb).2 = true :=
  ⟨rfl, rfl, rfl, rfl⟩

/-- The string value of a malformed metric used below. -/
def abcText : String := "abc"

/-- A creation body whose download metric is a non-numeric string. -/
def bodyTextMetric : ReqBody :=
  { download_mbps := Option.some (JSVal.str abcText)
    upload_mbps := Option.some (JSVal.num 10)
    ping_ms := Option.some (JSVal.num 20) }

/-- A creation body whose download metric is missing. -/
def bodyMissingMetric : ReqBody :=
  { download_mbps := Option.none
    upload_mbps := Option.some (JSVal.num 10)
    ping_ms := Option.some (JSVal.num 20) }

/-- Claim C1 is violated by the code: the POST handler performs no
validation. A body whose download metric is the non-numeric string abc is
inserted as-is and answered 200 with the created row, and a body with a
missing metric makes the better-sqlite3 binding throw, which Express turns
into a 500 server error — in neither case a client-error rejection, and in
the string case a record is inserted. -/
theorem C1_create_not_validated :
    (postSpeedtests 50 bodyTextMetric emptyDb).1 =
      PostResp.created
        { id := 1
          timestamp := 50
          download_mbps := SqlVal.text abcText
          upload_mbps := SqlVal.real 10
          ping_ms := SqlVal.real 20 } ∧
    (postSpeedtests 50 bodyTextMetric emptyDb).2.rows.length = 1 ∧
    (postSpeedtests 50 bodyMissingMetric emptyDb).1 = PostResp.serverError ∧
    (postSpeedtests 50 bodyMissingMetric emptyDb).2 = emptyDb :=
  ⟨rfl, rfl, rfl, rfl⟩

/-- Two rows created within the same clock second: equal timestamps,
consecutive ids, all metrics NULL. -/
def rowTie1 : SqlRow :=
  { id := 1
    timestamp := 100
    download_mbps := SqlVal.null
    upload_mbps := SqlVal.null
    ping_ms := SqlVal.null }

/-- The second, newer row of the tie. -/
def rowTie2 : SqlRow :=
  { id := 2
    timestamp := 100
    download_mbps := SqlVal.null
    upload_mbps := SqlVal.null
    ping_ms := SqlVal.null }

/-- A store holding the two tied rows in insertion order. -/
def dbTie : DbState :=
  { tableExists := true, hasUploadCol := true, rows := [rowTie1, rowTie2],
    seq := 2 }

/-- Counterexample to claim C5 as stated: the query orders by timestamp
alone, so two records created within the same second (equal timestamps)
are not returned newest-first with respect to insertion order: on dbTie
the returned sequence is rowTie1 then rowTie2, while newest-first by
insertion would be rowTie2 then rowTie1. -/
theorem C5_order_cex :
    ¬ ((listSpeedtests dbTie).length ≤ 100 ∧
        listSpeedtests dbTie = dbTie.rows.reverse.take 100) := by
  decide

/-- Claim C3: a failing probe makes the corresponding await throw before
the save POST is reached, so the test aborts with no submission, the
catch block sets the user-visible error message, the finally block clears
isRunning, and the store is left exactly as it was. -/
theorem C3_probe_failure_aborts (env : TestEnv) (st : ClientState)
    (db : DbState) (now : Nat) (hidle : st.isRunning = false)
    (hfail : env.ping = Option.none ∨ env.download = Option.none ∨
      env.upload = Option.none) :
    (runSpeedTest env st).2 = Option.none ∧
    (runSpeedTest env st).1.error = Option.some testFailMsg ∧
    (runSpeedTest env st).1.isRunning = false ∧
    submitToStore now db (runSpeedTest env st).2 = db := by
  have hcm : computeMetrics env = Option.none := by
    rcases hp : env.ping with _ | ⟨p0, p1⟩ <;>
      rcases hd : env.download with _ | ⟨d0, d1, sz⟩ <;>
        rcases hu : env.upload with _ | ⟨u0, u1⟩ <;>
          simp_all [computeMetrics]
  simp [runSpeedTest, hidle, completeTest, hcm, submitToStore]

/-- An environment whose ping probe fails. -/
def envPingFail : TestEnv :=
  { ping := Option.none, download := Option.none, upload := Option.none,
    saveOk := true }

/-- Witness for C3: a run whose ping fetch rejects, from the idle client
and the empty store. -/
theorem C3_probe_failure_aborts_witness :
    (runSpeedTest envPingFail idleClient).2 = Option.none ∧
    (runSpeedTest envPingFail idleClient).1.error = Option.some testFailMsg ∧
    (runSpeedTest envPingFail idleClient).1.isRunning = false ∧
    submitToStore 50 emptyDb (runSpeedTest envPingFail idleClient).2 =
      emptyDb :=
  C3_probe_failure_aborts envPingFail idleClient emptyDb 50 rfl (Or.inl rfl)

/-- Claim C5 amended: GET /api/speedtests always returns at most 100
records, ordered by timestamp non-increasing; whenever the stored
timestamps strictly increase with insertion order (no two records share a
clock second) this is exactly newest-first with respect to insertion
order, but records sharing a timestamp may come back in either relative
order, because the query sorts by timestamp, not id. -/
theorem C5_list_capped_sorted (db : DbState) :
    (listSpeedtests db).length ≤ 100 ∧
    (listSpeedtests db).Pairwise tsDesc ∧
    (db.rows.Pairwise (fun a b => a.timestamp < b.timestamp) →
      listSpeedtests db = db.rows.reverse.take 100) := by
  refine ⟨List.length_take_le _ _, ?_, ?_⟩
  · exact List.Pairwise.sublist (List.take_sublist _ _)
      (List.sorted_insertionSort tsDesc db.rows)
  · intro hstrict
    have hperm2 : (List.insertionSort tsDesc db.rows).Perm db.rows.reverse :=
      (List.perm_insertionSort tsDesc db.rows).trans
        (List.reverse_perm db.rows).symm
    have hne : db.rows.Pairwise (fun a b => a.timestamp ≠ b.timestamp) :=
      hstrict.imp (fun h => Nat.ne_of_lt h)
    have hneSorted : (List.insertionSort tsDesc db.rows).Pairwise
        (fun a b => a.timestamp ≠ b.timestamp) :=
      ((List.perm_insertionSort tsDesc db.rows).pairwise_iff
        (fun h => Ne.symm h)).mpr hne
    have hsorted : (List.insertionSort tsDesc db.rows).Pairwise tsDesc :=
      List.sorted_insertionSort tsDesc db.rows
    have hstrictSorted : (List.insertionSort tsDesc db.rows).Pairwise
        (fun a b => b.timestamp < a.timestamp) :=
      (hsorted.and hneSorted).imp
        (fun h => lt_of_le_of_ne h.1 (fun e => h.2 e.symm))
    have hrevSorted : db.rows.reverse.Pairwise
        (fun a b => b.timestamp < a.timestamp) :=
      List.pairwise_reverse.mpr hstrict
    haveI : IsAntisymm SqlRow (fun a b => b.timestamp < a.timestamp) :=
      ⟨fun _ _ h1 h2 => absurd h1 (Nat.lt_asymm h2)⟩
    have heq : List.insertionSort tsDesc db.rows = db.rows.reverse :=
      List.eq_of_perm_of_sorted hperm2 hstrictSorted hrevSorted
    unfold listSpeedtests
    rw [heq]

/-- A store of two rows with strictly increasing timestamps, used to
witness the conditional part of the C5 theorem. -/
def dbStrict : DbState :=
  { tableExists := true, hasUploadCol := true, seq := 2,
    rows :=
      [{ id := 1
         timestamp := 100
         download_mbps := SqlVal.null
         upload_mbps := SqlVal.null
         ping_ms := SqlVal.null },
       { id := 2
         timestamp := 101
         download_mbps := SqlVal.null
         upload_mbps := SqlVal.null
         ping_ms := SqlVal.null }] }

/-- Witness for C5 on dbStrict: the cap holds and the result is exactly
newest-first by insertion order. -/
theorem C5_list_capped_sorted_witness :
    (listSpeedtests dbStrict).length ≤ 100 ∧
      listSpeedtests dbStrict = dbStrict.rows.reverse.take 100 :=
  ⟨(C5_list_capped_sorted dbStrict).1,
    (C5_list_capped_sorted dbStrict).2.2 (by decide)⟩

/-- Inversion of a successful INSERT: the returned row carries id seq+1
and the given CURRENT_TIMESTAMP, and the store gains exactly that row
with the sequence advanced. -/
theorem createSpeedtest_ok (now : Nat) (b : ReqBody) (db : DbState)
    (r : SqlRow) (db2 : DbState)
    (h : createSpeedtest now b db = Except.ok (r, db2)) :
    r.id = db.seq + 1 ∧ r.timestamp = now ∧ db2.seq = db.seq + 1 ∧
      db2.rows = db.rows ++ [r] := by
  unfold createSpeedtest at h
  split at h
  · simp only [Except.ok.injEq, Prod.mk.injEq] at h
    obtain ⟨hr, hdb⟩ := h
    subst hr
    subst hdb
    exact ⟨rfl, rfl, rfl, rfl⟩
  · exact absurd h (by simp)

/-- Every record returned by a run of creations has an id above the
sequence value the run started from. -/
theorem runCreations_id_lb (reqs : List (Nat × ReqBody)) (db : DbState) :
    ∀ r ∈ (runCreations db reqs).1, db.seq < r.id := by
  induction reqs generalizing db with
  | nil =>
    intro r hr
    simp [runCreations] at hr
  | cons hd tl ih =>
    obtain ⟨now, b⟩ := hd
    intro r hr
    simp only [runCreations] at hr
    split at hr
    · exact ih db r hr
    · rename_i r0 db2 heq
      obtain ⟨hid, _, hseq, _⟩ := createSpeedtest_ok now b db r0 db2 heq
      rcases List.mem_cons.mp hr with h | h
      · subst h
        omega
      · have := ih db2 r h
        omega

/-- Every record returned by a run of creations whose CURRENT_TIMESTAMP
readings are all at least t0 has a timestamp at least t0. -/
theorem runCreations_ts_lb (reqs : List (Nat × ReqBody)) (db : DbState)
    (t0 : Nat) (hall : ∀ p ∈ reqs, t0 ≤ p.1) :
    ∀ r ∈ (runCreations db reqs).1, t0 ≤ r.timestamp := by
  induction reqs generalizing db with
  | nil =>
    intro r hr
    simp [runCreations] at hr
  | cons hd tl ih =>
    obtain ⟨now, b⟩ := hd
    intro r hr
    have halltl : ∀ p ∈ tl, t0 ≤ p.1 :=
      fun p hp => hall p (List.mem_cons_of_mem _ hp)
    simp only [runCreations] at hr
    split at hr
    · exact ih db halltl r hr
    · rename_i r0 db2 heq
      obtain ⟨_, hts, _, _⟩ := createSpeedtest_ok now b db r0 db2 heq
      rcases List.mem_cons.mp hr with h | h
      · subst h
        rw [hts]
        exact hall (now, b) (List.mem_cons_self _ _)
      · exact ih db2 halltl r h

/-- Claim C6: under a single writer whose CURRENT_TIMESTAMP readings are
non-decreasing, the records returned by a sequence of successful
creations have strictly increasing ids — each id is above every earlier
one — and non-decreasing timestamps. Creations that fail to bind return
500 and contribute no record, so they do not disturb the invariant. -/
theorem C6_ids_strictly_increase (db : DbState)
    (reqs : List (Nat × ReqBody))
    (hmono : (reqs.map Prod.fst).Pairwise (fun a b => a ≤ b)) :
    (runCreations db reqs).1.Pairwise
      (fun a b => a.id < b.id ∧ a.timestamp ≤ b.timestamp) := by
  induction reqs generalizing db with
  | nil => simp [runCreations]
  | cons hd tl ih =>
    obtain ⟨now, b⟩ := hd
    simp only [List.map_cons, List.pairwise_cons] at hmono
    obtain ⟨hnow, hmt⟩ := hmono
    simp only [runCreations]
    split
    · exact ih db hmt
    · rename_i r0 db2 heq
      obtain ⟨hid, hts, hseq, _⟩ := createSpeedtest_ok now b db r0 db2 heq
      refine List.Pairwise.cons ?_ (ih db2 hmt)
      intro r hr
      have hidr : db2.seq < r.id := runCreations_id_lb tl db2 r hr
      have htsr : now ≤ r.timestamp := by
        refine runCreations_ts_lb tl db2 now ?_ r hr
        intro p hp
        exact hnow p.1 (List.mem_map_of_mem Prod.fst hp)
      constructor
      · omega
      · omega

/-- A well-formed creation body with numeric metrics. -/
def goodBody : ReqBody :=
  { download_mbps := Option.some (JSVal.num 80)
    upload_mbps := Option.some (JSVal.num 16)
    ping_ms := Option.some (JSVal.num 5) }

/-- Witness for C6: two consecutive creations at seconds 10 and 20 from
the empty store. -/
theorem C6_ids_strictly_increase_witness :
    (runCreations emptyDb [(10, goodBody), (20, goodBody)]).1.Pairwise
      (fun a b => a.id < b.id ∧ a.timestamp ≤ b.timestamp) :=
  C6_ids_strictly_increase emptyDb [(10, goodBody), (20, goodBody)]
    (by decide)

/-- A fully successful environment matching the reference figures of the
spec: a 20 ms ping, the 5 MiB download received in exactly 1 second
(performance.now readings 0 and 1000) and the 2 MiB upload acknowledged
in exactly 0.5 seconds (readings 0 and 500). -/
def envOkA : TestEnv :=
  { ping := Option.some (0, 20)
    download := Option.some (0, 1000, 5 * 1024 * 1024)
    upload := Option.some (0, 500)
    saveOk := true }

/-- A second successful environment, used as the payload of the second
(ignored) start request. -/
def envOkB : TestEnv :=
  { ping := Option.some (0, 30)
    download := Option.some (0, 2000, 5 * 1024 * 1024)
    upload := Option.some (0, 1000)
    saveOk := true }

/-- The save POST of envOkA comes back ok. -/
theorem envOkA_saveOk : envOkA.saveOk = true := rfl

/-- Evaluation of the probe arithmetic on envOkA: 40 Mbps down, 32 Mbps
up, 20 ms ping, all exact so the two-decimal rounding is the identity. -/
theorem computeMetrics_envOkA :
    computeMetrics envOkA =
      Option.some
        { download_mbps := JSNum.fin 40
          upload_mbps := JSNum.fin 32
          ping_ms := JSNum.fin 20 } := by
  norm_num [computeMetrics, envOkA, JSNum.sub, JSNum.mul, JSNum.div,
    JSNum.toFixed2]

/-- Claim C4: the throughput formula (bytes * 8) / duration_seconds /
2^20 evaluated by the client: 5*2^20 bytes in 1 s gives download_mbps =
40 and 2*2^20 bytes in 0.5 s gives upload_mbps = 32. -/
theorem C4_throughput_values :
    (runSpeedTest envOkA idleClient).2 =
      Option.some
        { download_mbps := JSNum.fin 40
          upload_mbps := JSNum.fin 32
          ping_ms := JSNum.fin 20 } := by
  simp [runSpeedTest, idleClient, completeTest, computeMetrics_envOkA,
    envOkA_saveOk]

/-- An environment whose download probe completes with both
performance.now readings equal: a measured duration of zero. -/
def envZeroDur : TestEnv :=
  { ping := Option.some (0, 10)
    download := Option.some (100, 100, 5 * 1024 * 1024)
    upload := Option.some (200, 1200)
    saveOk := true }

/-- The save POST of envZeroDur comes back ok. -/
theorem envZeroDur_saveOk : envZeroDur.saveOk = true := rfl

/-- Claim C2 is violated by the code: nothing guards a zero (or negative)
probe duration. With a zero download duration the client computes
Infinity for download_mbps, does not treat the run as a failure (no error
message), still issues the save POST — JSON.stringify serializes the
Infinity as null — and the server inserts a record, so the store gains a
row with a NULL download metric instead of staying unmodified. -/
theorem C2_zero_duration_unguarded :
    (runSpeedTest envZeroDur idleClient).2 =
      Option.some
        { download_mbps := JSNum.posInf
          upload_mbps := JSNum.fin 16
          ping_ms := JSNum.fin 10 } ∧
    (runSpeedTest envZeroDur idleClient).1.error = Option.none ∧
    (submitToStore 50 emptyDb (runSpeedTest envZeroDur idleClient).2).rows =
      [{ id := 1
         timestamp := 50
         download_mbps := SqlVal.null
         upload_mbps := SqlVal.real 16
         ping_ms := SqlVal.real 10 }] := by
  have h : computeMetrics envZeroDur =
      Option.some
        { download_mbps := JSNum.posInf
          upload_mbps := JSNum.fin 16
          ping_ms := JSNum.fin 10 } := by
    norm_num [computeMetrics, envZeroDur, JSNum.sub, JSNum.mul, JSNum.div,
      JSNum.toFixed2]
  refine ⟨?_, ?_, ?_⟩ <;>
    simp [runSpeedTest, idleClient, completeTest, h, envZeroDur_saveOk,
      submitToStore, postSpeedtests, createSpeedtest, bindParam,
      submissionBody, jsBodyVal, jsonNum, emptyDb]

/-- Claim C8: the guard at the top of runSpeedTest makes a start request
while a test is in flight a no-op, so of two start requests issued during
one in-flight test only the first produces a test: the trace start,
start, finish issues exactly one save POST and creates exactly one record
in the store. -/
theorem C8_single_test_in_flight :
    (∀ (st : ClientState) (sent : List Submission) (env : TestEnv),
        st.isRunning = true →
        stepClient (st, sent) (ClientEvent.start env) = (st, sent)) ∧
    (runTrace (idleClient, []) [ClientEvent.start envOkA,
        ClientEvent.start envOkB, ClientEvent.finish]).2.length = 1 ∧
    ((runTrace (idleClient, []) [ClientEvent.start envOkA,
        ClientEvent.start envOkB, ClientEvent.finish]).2.foldl
        (fun d s => submitToStore 50 d (Option.some s))
        emptyDb).rows.length = 1 := by
  refine ⟨?_, ?_, ?_⟩
  · intro st sent env h
    simp [stepClient, h]
  · simp [runTrace, stepClient, idleClient, completeTest,
      computeMetrics_envOkA, envOkA_saveOk]
  · simp [runTrace, stepClient, idleClient, completeTest,
      computeMetrics_envOkA, envOkA_saveOk, submitToStore, postSpeedtests,
      createSpeedtest, bindParam, submissionBody, jsBodyVal, jsonNum,
      emptyDb]

/-- A client state with a test in flight. -/
def runningClient : ClientState :=
  { isRunning := true, error := Option.none, pendingEnv := Option.none }

/-- Witness for C8: a concrete start request against a running client is
a no-op, and the concrete two-start trace yields one submission. -/
theorem C8_single_test_in_flight_witness :
    stepClient (runningClient, []) (ClientEvent.start envOkB) =
      (runningClient, []) ∧
    (runTrace (idleClient, []) [ClientEvent.start envOkA,
        ClientEvent.start envOkB, ClientEvent.finish]).2.length = 1 :=
  ⟨C8_single_test_in_flight.1 runningClient [] envOkB rfl,
    C8_single_test_in_flight.2.1⟩

end SpeedTracker
